import Mathlib

/-!
Shallow embedding of the POP3 application-identification detector of this
repository (src/network_inspectors/appid/detector_plugins/detector_pop3.cc),
together with theorems settling the specification claims about it.

Bytes are modelled as natural numbers (payload bytes are 0..255, but no claim
needs the upper bound), payloads as lists of bytes.  The shared session flags
are a record of booleans; calls into the surrounding framework (add_app,
add_user, add_service_consume_subtype, fail_service, service_inprocess and the
explicit set/clear of session flags) are recorded as a list of `FwCall` events
in the order the code performs them.  All recursion is structural or driven by
an explicit fuel that is proven sufficient, so every definition evaluates by
kernel reduction.
-/

set_option linter.unusedVariables false

/-- C `isprint` on a byte in the C locale: printable ASCII 0x20..0x7E. -/
def isPrintByte (b : Nat) : Bool := decide (32 ≤ b ∧ b ≤ 126)

/-- C `isalnum` on a byte in the C locale. -/
def isAlnumByte (b : Nat) : Bool :=
  decide ((48 ≤ b ∧ b ≤ 57) ∨ (65 ≤ b ∧ b ≤ 90) ∨ (97 ≤ b ∧ b ≤ 122))

/-- The characters the username-capture loop stores: alnum or `.` `@` `-` `_`. -/
def isUserChar (b : Nat) : Bool :=
  isAlnumByte b || decide (b = 46 ∨ b = 64 ∨ b = 45 ∨ b = 95)

/-- Result of `pop3_check_line`: 0 (line consumed, CRLF seen), 1 (input
exhausted before CR), -1 (non-printable byte, or CR not followed by LF). -/
inductive CheckRes
  | terminated
  | incomplete
  | malformed
deriving DecidableEq, Repr

/-- `pop3_check_line`: advance the cursor past one printable-ASCII line ending
in CRLF.  Returns the result code and the advanced cursor (the remaining
bytes); on `malformed` the cursor is where the C code leaves `*data` (just
past the CR when CR was not followed by LF, at the offending byte otherwise). -/
def pop3_check_line : List Nat → CheckRes × List Nat
  | [] => (.incomplete, [])
  | b :: rest =>
    if b = 13 then
      match rest with
      | [] => (.malformed, [])
      | b2 :: rest2 => if b2 = 10 then (.terminated, rest2) else (.malformed, b2 :: rest2)
    else if isPrintByte b then pop3_check_line rest
    else (.malformed, b :: rest)

/-! ## Data model (ClientPOP3Data / ServicePOP3Data / POP3DetectorData) -/

inductive POP3ClientState
  | AUTH
  | TRANS
  | STLS_CMD
deriving DecidableEq, Repr

inductive POP3State
  | CONNECT
  | RESPONSE
  | CONTINUE
deriving DecidableEq, Repr

inductive AppId
  | POP3
  | POP3S
deriving DecidableEq, Repr

inductive SessionFlag
  | CLIENT_GETS_SERVER_PACKETS
  | CLIENT_DETECTED
  | SERVICE_DETECTED
  | CONTINUE
  | ENCRYPTED
deriving DecidableEq, Repr

structure RNAServiceSubtype where
  service : List Nat
  version : Option (List Nat)
deriving DecidableEq, Repr

/-- One call into the surrounding framework, in the order the code makes it. -/
inductive FwCall
  | setFlag (f : SessionFlag)
  | clearFlag (f : SessionFlag)
  | addApp (client payloadApp : AppId)
  | addUser (u : List Nat) (app : AppId) (success : Bool)
  | addService (app : AppId) (vendor : Option (List Nat)) (version : Option (List Nat))
      (subtype : List RNAServiceSubtype)
  | failService
  | serviceInprocess
deriving DecidableEq, Repr

/-- The session flags this detector reads or writes. -/
structure Flags where
  cgsp : Bool := false
  clientDetected : Bool := false
  serviceDetected : Bool := false
  sessCont : Bool := false
  encrypted : Bool := false
deriving DecidableEq, Repr

structure ClientPOP3Data where
  username : Option (List Nat) := none
  state : POP3ClientState := .AUTH
  set_flags : Bool := false
  detected : Bool := false
  got_user : Bool := false
deriving DecidableEq, Repr

structure ServicePOP3Data where
  state : POP3State := .CONNECT
  count : Nat := 0
  vendor : Option (List Nat) := none
  version : List Nat := []
  subtype : List RNAServiceSubtype := []
  error : Bool := false
deriving DecidableEq, Repr

structure POP3DetectorData where
  client : ClientPOP3Data := {}
  server : ServicePOP3Data := {}
  need_continue : Bool := false
deriving DecidableEq, Repr

/-- The zero-initialised (calloc) per-flow record as both detectors create it. -/
def freshDD : POP3DetectorData := {}

inductive SrvRes
  | ok
  | fail
deriving DecidableEq, Repr

inductive Result
  | INPROCESS
  | SUCCESS
  | NOMATCH
deriving DecidableEq, Repr

/-! ## Vendor/version/subtype extraction from the server greeting -/

def venCppop : List Nat := [99, 112, 112, 111, 112]
def venCC : List Nat := [67, 117, 98, 105, 99, 32, 67, 105, 114, 99, 108, 101]
def verCC : List Nat := [39, 115, 32, 118]
def venIM : List Nat := [73, 110, 116, 101, 114, 77, 97, 105, 108]
def venPO : List Nat := [80, 111, 115, 116, 46, 79, 102, 102, 105, 99, 101]
def verPO : List Nat := [32, 118]
def verPO2 : List Nat := [32, 114, 101, 108, 101, 97, 115, 101, 32]
def subPO : List Nat := [32, 119, 105, 116, 104, 32]
def subverPO : List Nat := [32, 118, 101, 114, 115, 105, 111, 110, 32]

/-- Modelled from the spec: `service_strstr` (service_plugins/service_util.h is
not part of the sources given) — first occurrence of `pat` in `hay`, returned
as a byte offset; the spec says the greeting is scanned for the first
occurrence of each marker. -/
def strstrAux (pat : List Nat) : List Nat → Nat → Option Nat
  | [], i => if pat.isPrefixOf [] then some i else none
  | h :: t, i => if pat.isPrefixOf (h :: t) then some i else strstrAux pat t (i + 1)

def service_strstr (hay pat : List Nat) : Option Nat := strstrAux pat hay 0

/-- Byte at index `i` of the extraction region (reads are all in bounds in the
C code; out-of-range defaults to 0 and is never reached with real inputs). -/
def byteAt (L : List Nat) (i : Nat) : Nat := L.getD i 0

/-- Bytes of `L` from index `a` (inclusive) to `b` (exclusive). -/
def regionOf (L : List Nat) (a b : Nat) : List Nat := (L.drop a).take (b - a)

/-- The index where a `for (; p < line_end && *p && *p != X; p++)` scan stops,
starting from `j`: `j` plus the number of consecutive bytes of `L` in
`[j, len)` that are neither 0 nor a stop byte. -/
def scanTo (L : List Nat) (len : Nat) (stop : Nat → Bool) (j : Nat) : Nat :=
  j + (((L.drop j).take (len - j)).takeWhile (fun b => !(b = 0 || stop b))).length

/-- The version-copy loops bound the stored version to 63 bytes (64-byte
buffer with terminator) and stop at an embedded NUL. -/
def copyVer (L : List Nat) (a b : Nat) : List Nat :=
  (((regionOf L a b).takeWhile (fun b => b ≠ 0)).take 63)

/-- The `server && begin` block of `pop3_server_validate`: scan the greeting
line for vendor/version/subtype markers.  `L` is the bytes from `begin` up to
and including the byte at `line_end` (`line_end = &data[-1]`), so the scanned
region has length `L.length - 1` and the one unguarded read at `line_end`
(cppop's `*p == ' '` test) stays inside `L`.  Returns the new
(vendor, version, subtype). -/
def extractVendor (vendor0 : Option (List Nat)) (version0 : List Nat)
    (subtype0 : List RNAServiceSubtype) (L : List Nat) :
    Option (List Nat) × List Nat × List RNAServiceSubtype :=
  let len := L.length - 1
  let hay := L.take len
  match service_strstr hay venCppop with
  | some i =>
    let p0 := i + 5
    if byteAt L p0 = 32 then
      let p1 := p0 + 1
      let j := scanTo L len (fun b => b = 93) p1
      if j < len ∧ byteAt L j ≠ 0 then
        (some venCppop, (regionOf L p1 j).take 63, subtype0)
      else (some venCppop, [], subtype0)
    else (some venCppop, version0, subtype0)
  | none =>
  match service_strstr hay venCC with
  | some i =>
    let p0 := i + 12
    if 4 ≤ len - p0 ∧ regionOf L p0 (p0 + 4) = verCC then
      let p1 := p0 + 4
      let j := scanTo L len (fun b => b = 32) p1
      if j < len ∧ byteAt L j ≠ 0 then
        (some venCC, (regionOf L p1 j).take 63, subtype0)
      else (some venCC, [], subtype0)
    else (some venCC, version0, subtype0)
  | none =>
  match service_strstr hay venIM with
  | some _ => (some venIM, version0, subtype0)
  | none =>
  match service_strstr hay venPO with
  | some i =>
    let p0 := i + 11
    if len - p0 < 2 ∨ regionOf L p0 (p0 + 2) ≠ verPO then (some venPO, version0, subtype0)
    else
      let pVer := p0 + 2
      let j := scanTo L len (fun b => b = 32) pVer
      if j = pVer ∨ len ≤ j ∨ byteAt L j = 0 then (some venPO, version0, subtype0)
      else if len - j < 9 ∨ regionOf L j (j + 9) ≠ verPO2 then
        (some venPO, copyVer L pVer j, subtype0)
      else
        let p2 := j + 9
        let j2 := scanTo L len (fun b => b = 32) p2
        if len ≤ j2 ∨ j2 = p2 ∨ byteAt L j2 = 0 then
          (some venPO, copyVer L pVer j, subtype0)
        else
          let ver1 := copyVer L pVer j2
          if len - j2 < 6 ∨ regionOf L j2 (j2 + 6) ≠ subPO then (some venPO, ver1, subtype0)
          else
            let s0 := j2 + 6
            let j3 := scanTo L len (fun b => b = 32) s0
            if j3 = s0 ∨ len ≤ j3 ∨ byteAt L j3 = 0 then (some venPO, ver1, subtype0)
            else
              let svc := regionOf L s0 j3
              let sver :=
                if 9 < len - j3 ∧ regionOf L j3 (j3 + 9) = subverPO then
                  let s1 := j3 + 9
                  let j4 := scanTo L len (fun b => b = 32) s1
                  if j4 ≠ s1 ∧ j4 < len ∧ byteAt L j4 ≠ 0 then some (regionOf L s1 j4)
                  else none
                else none
              (some venPO, ver1, ⟨svc, sver⟩ :: subtype0)
  | none => (vendor0, version0, subtype0)

/-! ## Server parser (`pop3_server_validate`) -/

/-- Return value of `pop3_server_validate`: result code, the mutated per-flow
record, the mutated session flags, and the framework calls made. -/
structure SrvRet where
  res : SrvRes
  dd : POP3DetectorData
  flags : Flags
  calls : List FwCall
deriving DecidableEq, Repr

/-- The correlation block run after a status line: STLS_PENDING handling, else
username surrender.  Takes the client record, the just-parsed error flag, and
`need_continue`; returns their new values plus flag state and calls. -/
def pop3Correlate (cl : ClientPOP3Data) (error : Bool) (needCont : Bool) (fl : Flags) :
    ClientPOP3Data × Bool × Flags × List FwCall :=
  if cl.state = .STLS_CMD then
    if error then ({ cl with state := .AUTH }, needCont, fl, [])
    else
      (cl, needCont,
       { fl with encrypted := true, cgsp := false },
       [.setFlag .ENCRYPTED, .clearFlag .CLIENT_GETS_SERVER_PACKETS, .addApp .POP3S .POP3S])
  else
    match cl.username with
    | some u =>
      if error then ({ cl with username := none }, needCont, fl, [.addUser u .POP3 false])
      else
        ({ cl with username := none, got_user := true }, false,
         { fl with cgsp := false, clientDetected := fl.clientDetected || cl.detected },
         [.addUser u .POP3 true, .clearFlag .CLIENT_GETS_SERVER_PACKETS] ++
           (if cl.detected then [.setFlag .CLIENT_DETECTED] else []))
    | none => (cl, needCont, fl, [])

/-- Fuel-driven body of the `POP3_STATE_CONTINUE` loop.  The fuel never runs
out when it is at least the payload length plus one (`contLoopF_suff`). -/
def contLoopF : Nat → POP3DetectorData → Flags → List Nat → SrvRet
  | 0, dd, fl, _ => ⟨.ok, dd, fl, []⟩
  | fuel + 1, dd, fl, r =>
    if r.isEmpty then ⟨.ok, dd, fl, []⟩
    else if r = [46, 13, 10] then
      ⟨.ok, { dd with server.count := dd.server.count + 1, server.state := .RESPONSE }, fl, []⟩
    else
      match pop3_check_line r with
      | (.terminated, r2) => contLoopF fuel dd fl r2
      | (.incomplete, _) => ⟨.ok, dd, fl, []⟩
      | (.malformed, _) => ⟨.fail, dd, fl, []⟩

def contLoop (dd : POP3DetectorData) (fl : Flags) (r : List Nat) : SrvRet :=
  contLoopF (r.length + 1) dd fl r

/-- Everything after a `+OK`/`-ERR` prefix has been consumed: validate the
rest of the status line, correlate with the client state, extract
vendor/version/subtype from the greeting when `server && begin`, then either
count a finished response or fall into the CONTINUE loop.  `p` is the whole
payload (needed for the greeting region), `rest0` the bytes after the status
prefix. -/
def afterStatus (dd : POP3DetectorData) (fl : Flags) (rest0 : List Nat)
    (server beginSet : Bool) (p : List Nat) : SrvRet :=
  match pop3_check_line rest0 with
  | (.malformed, _) => ⟨.fail, dd, fl, []⟩
  | (_, rest) =>
    let c := pop3Correlate dd.client dd.server.error dd.need_continue fl
    let dd := { dd with client := c.1, need_continue := c.2.1 }
    let fl := c.2.2.1
    let calls := c.2.2.2
    let dd :=
      if server && beginSet then
        let e := extractVendor dd.server.vendor dd.server.version dd.server.subtype
          (p.take (p.length - rest.length))
        { dd with server.vendor := e.1, server.version := e.2.1, server.subtype := e.2.2 }
      else dd
    if rest.isEmpty then ⟨.ok, { dd with server.count := dd.server.count + 1 }, fl, calls⟩
    else
      let r := contLoop { dd with server.state := .CONTINUE } fl rest
      ⟨r.res, r.dd, r.flags, calls ++ r.calls⟩

/-- The `"+ "` SASL-continuation branch: one line must be consumed and must
end exactly at the end of the payload. -/
def plusCont (dd : POP3DetectorData) (fl : Flags) (p : List Nat) : SrvRet :=
  match pop3_check_line (p.drop 2) with
  | (.terminated, rest) => if rest.isEmpty then ⟨.ok, dd, fl, []⟩ else ⟨.fail, dd, fl, []⟩
  | _ => ⟨.fail, dd, fl, []⟩

/-- The RESPONSE-state status handling: require `+OK` or `-ERR` (payloads of
fewer than 5 bytes fail), record the error flag, then `afterStatus`.
`beginSet` is true when we fell through from CONNECT (greeting); `-ERR`
clears `begin`. -/
def responseCase (dd : POP3DetectorData) (fl : Flags) (p : List Nat)
    (server beginSet : Bool) : SrvRet :=
  if p.length < 5 then ⟨.fail, dd, fl, []⟩
  else if [43, 79, 75].isPrefixOf p then
    afterStatus { dd with server.error := false } fl (p.drop 3) server beginSet p
  else if [45, 69, 82, 82].isPrefixOf p then
    afterStatus { dd with server.error := true } fl (p.drop 4) server false p
  else ⟨.fail, dd, fl, []⟩

/-- `pop3_server_validate(dd, data, size, asd, server)`.  The `"+ "` test
reads the first two payload bytes and is only reached in the RESPONSE state
(in CONNECT, `begin` is set and the test is skipped). -/
def pop3_server_validate (dd : POP3DetectorData) (fl : Flags) (p : List Nat)
    (server : Bool) : SrvRet :=
  match dd.server.state with
  | .CONTINUE => contLoop dd fl p
  | .CONNECT => responseCase { dd with server.state := .RESPONSE } fl p server true
  | .RESPONSE =>
    if p.take 2 = [43, 32] then plusCont dd fl p
    else responseCase dd fl p server false

/-! ## Client parser (`Pop3ClientDetector::validate`) -/

/-- The 29 client command patterns, 0-based, in the order of
`pop3_client_patterns` (the matcher hands the callback the 1-based index
`k + 1`). -/
def pat : Nat → List Nat
  | 0 => [85, 83, 69, 82, 32]
  | 1 => [80, 65, 83, 83, 32]
  | 2 => [65, 80, 79, 80, 32]
  | 3 => [65, 85, 84, 72, 32]
  | 4 => [65, 85, 84, 72, 13, 10]
  | 5 => [65, 85, 84, 72, 10]
  | 6 => [65, 85, 84, 72, 32, 13, 10]
  | 7 => [65, 85, 84, 72, 32, 10]
  | 8 => [83, 84, 76, 83, 13, 10]
  | 9 => [83, 84, 76, 83, 10]
  | 10 => [68, 69, 76, 69, 32]
  | 11 => [76, 73, 83, 84, 32]
  | 12 => [76, 73, 83, 84, 13, 10]
  | 13 => [76, 73, 83, 84, 10]
  | 14 => [78, 79, 79, 80, 13, 10]
  | 15 => [78, 79, 79, 80, 10]
  | 16 => [81, 85, 73, 84, 13, 10]
  | 17 => [81, 85, 73, 84, 10]
  | 18 => [82, 69, 84, 82, 32]
  | 19 => [83, 84, 65, 84, 13, 10]
  | 20 => [83, 84, 65, 84, 10]
  | 21 => [82, 83, 69, 84, 13, 10]
  | 22 => [82, 83, 69, 84, 10]
  | 23 => [84, 79, 80, 32]
  | 24 => [85, 73, 68, 76, 32]
  | 25 => [85, 73, 68, 76, 13, 10]
  | 26 => [85, 73, 68, 76, 10]
  | 27 => [67, 65, 80, 65, 13, 10]
  | 28 => [67, 65, 80, 65, 10]
  | _ => []

/-- The source's `eoc` array, 0-based and aligned with the pattern table.
Note: the code indexes it with the 1-based matcher index, shifting every
lookup by one; index 29 (the last pattern, `CAPA\n`) is an out-of-bounds read
of the `std::array`, modelled here as `false` by `eocIdx`. -/
def eocTable : List Bool :=
  [false, false, false, false, true, true, true, true, true,
   true, false, false, true, true, true, true, true, true, false, true, true, true, true,
   false, false, true, true, true, true]

/-- `eoc[pattern_index]` as the code performs it: 1-based index into the
0-based table. -/
def eocIdx (id : Nat) : Bool := eocTable.getD id false

def patIdxList : List Nat :=
  [0, 1, 2, 3, 4, 5, 6, 7, 8, 9, 10, 11, 12, 13, 14, 15, 16, 17, 18, 19, 20,
   21, 22, 23, 24, 25, 26, 27, 28]

def findPatFrom (s : List Nat) : List Nat → Option Nat
  | [] => none
  | k :: ks => if (pat k).isPrefixOf s then some (k + 1) else findPatFrom s ks

/-- The anchored pattern search (`cmd_matcher->find_all` + the
`pop3_pattern_match` callback): the `ac_full` search reports matches in order
of increasing end position and the callback accepts the first whose end
position equals its pattern length, i.e. the shortest pattern sitting at
offset 0 of the window.  Because the window is `min(longest_pattern,
remaining)` and every pattern is at most `longest_pattern` long, a pattern is
found iff it is a prefix of the remaining bytes.  For this pattern set,
scanning the table in order gives the same result as shortest-first (the only
nested patterns are `AUTH ` < `AUTH \n` and `AUTH ` < `AUTH \r\n`, and
`AUTH ` comes first in the table), so the search is the first pattern in
table order that is a prefix; returns the 1-based index. -/
def pop3_pattern_match (s : List Nat) : Option Nat := findPatFrom s patIdxList

def skipToEol (l : List Nat) : List Nat := l.dropWhile (fun b => decide (b ≠ 13 ∧ b ≠ 10))

def skipCrlf (l : List Nat) : List Nat := l.dropWhile (fun b => decide (b = 13 ∨ b = 10))

/-- The username-capture loop of the `PATTERN_APOP`/`PATTERN_USER` case:
consume storable characters into a 249-byte stack buffer (`p_end` 248 bytes
in), handle backtick suppression, and store the buffer into `fd->username`
only when a CR/LF/space separator is reached while the buffer is not full;
`old` is the previous `fd->username`.  Returns the new `fd->username` and the
cursor (left at the byte that ended the loop). -/
def captureUser (old : Option (List Nat)) : List Nat → List Nat → Bool →
    Option (List Nat) × List Nat
  | [], _, _ => (old, [])
  | b :: rest, acc, tick =>
    if acc.length < 248 then
      if isUserChar b then captureUser old rest (if tick then acc else acc.concat b) tick
      else if b = 96 then captureUser old rest acc true
      else if b = 13 ∨ b = 10 ∨ b = 32 then
        ((if acc.isEmpty then old else some acc), b :: rest)
      else (old, b :: rest)
    else (old, b :: rest)

/-- One iteration of the client command loop: either the matcher finds no
anchored pattern (`noMatch`), or the command is dispatched on the client
sub-state.  The `switch (pattern_index)` compares the 1-based matcher index
with the 0-based `Client_App_Pattern_Index` enum values, exactly as the code
does. -/
inductive ClientStepRes
  | noMatch
  | step (fd : ClientPOP3Data) (rest : List Nat) (calls : List FwCall)
deriving DecidableEq, Repr

def authDispatch (id : Nat) (fd : ClientPOP3Data) (s1 : List Nat) : ClientStepRes :=
  if id = 8 ∨ id = 9 then
    -- case PATTERN_STLSEOC/PATTERN_STLSEOC2 (hit by 1-based ids 8 and 9)
    .step { fd with state := .STLS_CMD } (skipCrlf s1) []
  else if id = 2 ∨ id = 0 then
    -- case PATTERN_APOP/PATTERN_USER (hit by 1-based id 2, i.e. `PASS `)
    let c := captureUser fd.username s1 [] false
    let st : POP3ClientState := if id = 2 then .TRANS else fd.state
    let fd := { fd with username := c.1, state := st }
    .step fd (skipCrlf (skipToEol c.2)) []
  else if id = 3 then
    -- case PATTERN_AUTH (hit by 1-based id 3, i.e. `APOP `)
    .step { fd with state := .TRANS } (skipCrlf (skipToEol s1)) []
  else if 4 ≤ id ∧ id ≤ 7 then
    -- case PATTERN_AUTHEOC..PATTERN_AUTHEOC4 (hit by 1-based ids 4..7)
    .step fd (skipCrlf s1) []
  else if id = 1 ∧ fd.got_user then
    -- case PATTERN_PASS (hit by 1-based id 1, i.e. `USER `), got_user set
    .step { fd with state := .TRANS } (skipCrlf (skipToEol s1)) []
  else
    -- default (and PATTERN_PASS without got_user falling through)
    .step fd (skipCrlf (if eocIdx id then s1 else skipToEol s1)) []

def clientStep (fd : ClientPOP3Data) (s : List Nat) : ClientStepRes :=
  match pop3_pattern_match s with
  | none => .noMatch
  | some id =>
    let s1 := s.drop (pat (id - 1)).length
    if fd.state = .TRANS then
      let calls : List FwCall := if 10 ≤ id then [.addApp .POP3 .POP3] else []
      let fd := if 10 ≤ id then { fd with detected := true } else fd
      .step fd (skipCrlf (if eocIdx id then s1 else skipToEol s1)) calls
    else
      -- POP3_CLIENT_STATE_STLS_CMD falls back to AUTH and falls through
      authDispatch id { fd with state := .AUTH } s1

/-- Return of the client command loop: final client record, calls made,
whether the loop ended on a failed pattern match, and the number of loop
iterations performed. -/
structure ClientLoopRet where
  fd : ClientPOP3Data
  calls : List FwCall
  noMatch : Bool
  iters : Nat
deriving DecidableEq, Repr

/-- Fuel-driven client command loop; fuel `s.length + 1` always suffices
(`clientLoopF_suff`). -/
def clientLoopF : Nat → ClientPOP3Data → List Nat → ClientLoopRet
  | 0, fd, _ => ⟨fd, [], false, 0⟩
  | fuel + 1, fd, s =>
    if s.isEmpty then ⟨fd, [], false, 0⟩
    else
      match clientStep fd s with
      | .noMatch => ⟨fd, [], true, 1⟩
      | .step fd1 rest cs =>
        let r := clientLoopF fuel fd1 rest
        ⟨r.fd, cs ++ r.calls, r.noMatch, r.iters + 1⟩

def pop3ClientLoop (fd : ClientPOP3Data) (s : List Nat) : ClientLoopRet :=
  clientLoopF (s.length + 1) fd s

structure ClientRet where
  res : Result
  dd : Option POP3DetectorData
  flags : Flags
  calls : List FwCall
deriving DecidableEq, Repr

/-- `Pop3ClientDetector::validate`: create the per-flow record when missing,
do the one-time flag initialisation, then either hand responder payloads to
`pop3_server_validate` (server = 0) or run the client command loop.  On a
failed pattern match the loop clears `need_continue`, sets CLIENT_DETECTED
and returns SUCCESS. -/
def pop3ClientValidate (dd0 : Option POP3DetectorData) (fl : Flags)
    (fromResponder : Bool) (p : List Nat) : ClientRet :=
  if p.isEmpty then ⟨.INPROCESS, dd0, fl, []⟩
  else
    let dd := dd0.getD freshDD
    let init := ¬dd.client.set_flags
    let dd := if init then { dd with need_continue := true, client.set_flags := true } else dd
    let fl := if init then { fl with cgsp := true } else fl
    let initCalls : List FwCall :=
      if init then [.setFlag .CLIENT_GETS_SERVER_PACKETS] else []
    if fromResponder then
      let r := pop3_server_validate dd fl p false
      if r.res = .fail then
        ⟨.INPROCESS, some r.dd, { r.flags with cgsp := false },
         initCalls ++ r.calls ++ [.clearFlag .CLIENT_GETS_SERVER_PACKETS]⟩
      else ⟨.INPROCESS, some r.dd, r.flags, initCalls ++ r.calls⟩
    else
      let r := pop3ClientLoop dd.client p
      if r.noMatch then
        ⟨.SUCCESS, some { dd with client := r.fd, need_continue := false },
         { fl with clientDetected := true },
         initCalls ++ r.calls ++ [.setFlag .CLIENT_DETECTED]⟩
      else ⟨.INPROCESS, some { dd with client := r.fd }, fl, initCalls ++ r.calls⟩

/-! ## Service detector (`Pop3ServiceDetector::validate`) -/

structure SvcRet where
  res : Result
  dd : Option POP3DetectorData
  flags : Flags
  calls : List FwCall
deriving DecidableEq, Repr

/-- `Pop3ServiceDetector::validate`: guard on size and direction, create the
per-flow record when missing, clear CLIENT_GETS_SERVER_PACKETS, maintain the
CONTINUE flag from `need_continue`, then run `pop3_server_validate` with
server = 1 and act on the result and the response-count threshold (4). -/
def pop3ServiceValidate (dd0 : Option POP3DetectorData) (fl : Flags)
    (fromResponder : Bool) (p : List Nat) : SvcRet :=
  if p.isEmpty ∨ ¬fromResponder then ⟨.INPROCESS, dd0, fl, [.serviceInprocess]⟩
  else
    let dd := dd0.getD freshDD
    let fl := { fl with cgsp := false }
    let calls0 : List FwCall := [.clearFlag .CLIENT_GETS_SERVER_PACKETS]
    if dd.need_continue then
      let fl := { fl with sessCont := true }
      let calls0 := calls0 ++ [.setFlag .CONTINUE]
      pop3ServiceCore dd fl calls0 p
    else
      let fl := { fl with sessCont := false }
      let calls0 := calls0 ++ [.clearFlag .CONTINUE]
      if fl.serviceDetected then ⟨.SUCCESS, some dd, fl, calls0⟩
      else pop3ServiceCore dd fl calls0 p
where
  pop3ServiceCore (dd : POP3DetectorData) (fl : Flags) (calls0 : List FwCall)
      (p : List Nat) : SvcRet :=
    let r := pop3_server_validate dd fl p true
    if r.res = .ok then
      if 4 ≤ r.dd.server.count ∧ ¬r.flags.serviceDetected then
        ⟨.SUCCESS, some { r.dd with server.subtype := [] }, r.flags,
         calls0 ++ r.calls ++
           [.addService (if r.dd.client.state = .STLS_CMD then .POP3S else .POP3)
             r.dd.server.vendor
             (if r.dd.server.version.isEmpty then none else some r.dd.server.version)
             r.dd.server.subtype]⟩
      else ⟨.INPROCESS, some r.dd, r.flags, calls0 ++ r.calls ++ [.serviceInprocess]⟩
    else if ¬r.flags.serviceDetected then
      ⟨.NOMATCH, some r.dd, r.flags, calls0 ++ r.calls ++ [.failService]⟩
    else
      ⟨.SUCCESS, some r.dd, { r.flags with sessCont := false },
       calls0 ++ r.calls ++ [.clearFlag .CONTINUE]⟩

/-! ## Feeding a whole packetised stream -/

/-- Feed a sequence of responder payloads through the service detector,
accumulating the framework calls. -/
def serviceFeedAll (dd : Option POP3DetectorData) (fl : Flags) :
    List (List Nat) → Option POP3DetectorData × Flags × List FwCall
  | [] => (dd, fl, [])
  | p :: ps =>
    let r := pop3ServiceValidate dd fl true p
    let rest := serviceFeedAll r.dd r.flags ps
    (rest.1, rest.2.1, r.calls ++ rest.2.2)

/-- Feed a sequence of responder payloads directly through the server parser
(service caller, server = 1). -/
def serverFeedAll (dd : POP3DetectorData) (fl : Flags) :
    List (List Nat) → POP3DetectorData × Flags × List FwCall
  | [] => (dd, fl, [])
  | p :: ps =>
    let r := pop3_server_validate dd fl p true
    let rest := serverFeedAll r.dd r.flags ps
    (rest.1, rest.2.1, r.calls ++ rest.2.2)

/-! ## Helper predicates used by theorem statements -/

def isAddApp : FwCall → Bool
  | .addApp _ _ => true
  | _ => false

def isAddUser : FwCall → Bool
  | .addUser _ _ _ => true
  | _ => false

def isAddService : FwCall → Bool
  | .addService _ _ _ _ => true
  | _ => false

/-- A `+OK` status line with middle text `mid`. -/
def okLine (mid : List Nat) : List Nat := [43, 79, 75] ++ mid ++ [13, 10]

/-- A `-ERR` status line with middle text `mid`. -/
def errLine (mid : List Nat) : List Nat := [45, 69, 82, 82] ++ mid ++ [13, 10]

/-- All bytes printable ASCII. -/
def printableList (l : List Nat) : Prop := ∀ b ∈ l, 32 ≤ b ∧ b ≤ 126

/-! ## Lemmas: line scanner -/

theorem checkLine_printable (mid : List Nat) (r : List Nat) (h : printableList mid) :
    pop3_check_line (mid ++ 13 :: 10 :: r) = (.terminated, r) := by
  induction mid with
  | nil => simp [pop3_check_line]
  | cons b t ih =>
    have hb := h b (List.mem_cons_self b t)
    have ht : printableList t := fun x hx => h x (List.mem_cons_of_mem _ hx)
    have hb13 : ¬ b = 13 := by omega
    have hp : isPrintByte b = true := by simp [isPrintByte]; omega
    simpa [pop3_check_line, hb13, hp] using ih ht

theorem checkLine_term_len : ∀ (l r : List Nat), pop3_check_line l = (.terminated, r) →
    r.length + 2 ≤ l.length := by
  intro l
  induction l with
  | nil => intro r h; simp [pop3_check_line] at h
  | cons b t ih =>
    intro r h
    by_cases hb : b = 13
    · subst hb
      rcases t with _ | ⟨b2, t2⟩
      · simp [pop3_check_line] at h
      · by_cases h2 : b2 = 10
        · subst h2
          simp [pop3_check_line] at h
          subst h
          simp
        · simp [pop3_check_line, h2] at h
    · by_cases hpb : isPrintByte b = true
      · simp only [pop3_check_line, if_neg hb, if_pos hpb] at h
        have := ih r h
        simp only [List.length_cons]
        omega
      · simp [pop3_check_line, hb, hpb] at h

theorem skipToEol_le (l : List Nat) : (skipToEol l).length ≤ l.length :=
  (List.IsSuffix.sublist (List.dropWhile_suffix _)).length_le

theorem skipCrlf_le (l : List Nat) : (skipCrlf l).length ≤ l.length :=
  (List.IsSuffix.sublist (List.dropWhile_suffix _)).length_le

theorem captureUser_le (old : Option (List Nat)) :
    ∀ (s acc : List Nat) (tick : Bool), ((captureUser old s acc tick).2).length ≤ s.length := by
  intro s
  induction s with
  | nil => intro acc tick; simp [captureUser]
  | cons b t ih =>
    intro acc tick
    simp only [captureUser]
    split_ifs with h1 h2 h3 h4
    all_goals first
      | exact (ih _ _).trans (Nat.le_succ _)
      | simp

/-! ## Lemmas: the anchored pattern matcher -/

theorem findPatFrom_some (s : List Nat) : ∀ (ks : List Nat) (j : Nat),
    findPatFrom s ks = some j → ∃ k ∈ ks, j = k + 1 ∧ (pat k).isPrefixOf s = true := by
  intro ks
  induction ks with
  | nil => intro j h; simp [findPatFrom] at h
  | cons k ks ih =>
    intro j h
    simp only [findPatFrom] at h
    by_cases hk : (pat k).isPrefixOf s = true
    · rw [if_pos hk] at h
      refine ⟨k, by simp, ?_, hk⟩
      simpa using h.symm
    · rw [if_neg hk] at h
      obtain ⟨k2, hk2, rfl, hp⟩ := ih j h
      exact ⟨k2, by simp [hk2], rfl, hp⟩

theorem patIdx_len {k : Nat} (hk : k ∈ patIdxList) : 1 ≤ (pat k).length := by
  fin_cases hk <;> decide

theorem pattern_match_some {s : List Nat} {j : Nat} (h : pop3_pattern_match s = some j) :
    1 ≤ j ∧ (pat (j - 1)).isPrefixOf s = true ∧ 1 ≤ (pat (j - 1)).length := by
  obtain ⟨k, hk, hj, hp⟩ := findPatFrom_some s patIdxList j h
  subst hj
  have hk1 : k + 1 - 1 = k := by omega
  exact ⟨by omega, by rw [hk1]; exact hp, by rw [hk1]; exact patIdx_len hk⟩

/-! ## Lemmas: client loop progress and fuel sufficiency -/

theorem authDispatch_le (id : Nat) (fd fd1 : ClientPOP3Data) (s1 rest : List Nat)
    (cs : List FwCall) (h : authDispatch id fd s1 = .step fd1 rest cs) :
    rest.length ≤ s1.length := by
  unfold authDispatch at h
  split_ifs at h <;> simp only [ClientStepRes.step.injEq] at h <;>
    obtain ⟨-, h2, -⟩ := h <;> subst h2 <;>
    refine le_trans (skipCrlf_le _) ?_ <;>
    first
      | exact le_refl _
      | exact skipToEol_le _
      | exact le_trans (skipToEol_le _) (captureUser_le _ _ _ _)

theorem clientStep_decr {fd : ClientPOP3Data} {s : List Nat} {fd1 : ClientPOP3Data}
    {rest : List Nat} {cs : List FwCall} (h : clientStep fd s = .step fd1 rest cs) :
    rest.length < s.length := by
  unfold clientStep at h
  rcases hm : pop3_pattern_match s with _ | j
  · rw [hm] at h; simp at h
  · rw [hm] at h
    obtain ⟨hj, hp, hlen⟩ := pattern_match_some hm
    have hps : (pat (j - 1)).length ≤ s.length := (List.isPrefixOf_iff_prefix.mp hp).length_le
    have hd : (s.drop (pat (j - 1)).length).length < s.length := by
      rw [List.length_drop]; omega
    simp only at h
    by_cases ht : fd.state = .TRANS
    · rw [if_pos ht] at h
      simp only [ClientStepRes.step.injEq] at h
      obtain ⟨-, h2, -⟩ := h
      subst h2
      refine lt_of_le_of_lt ?_ hd
      refine (skipCrlf_le _).trans ?_
      split
      · exact le_refl _
      · exact skipToEol_le _
    · rw [if_neg ht] at h
      exact lt_of_le_of_lt (authDispatch_le _ _ _ _ _ _ h) hd

theorem clientLoopF_suff : ∀ (fuel : Nat) (fd : ClientPOP3Data) (s : List Nat),
    s.length < fuel → clientLoopF fuel fd s = pop3ClientLoop fd s := by
  intro fuel
  induction fuel using Nat.strong_induction_on with
  | _ fuel ih =>
    intro fd s hs
    match fuel, hs with
    | fuel + 1, hs =>
      unfold pop3ClientLoop
      by_cases he : s.isEmpty
      · simp [clientLoopF, he]
      · rcases hstep : clientStep fd s with _ | ⟨fd1, rest, cs⟩
        · simp [clientLoopF, he, hstep]
        · have hr : rest.length < s.length := clientStep_decr hstep
          have e1 : clientLoopF fuel fd1 rest = pop3ClientLoop fd1 rest :=
            ih fuel (by omega) fd1 rest (by omega)
          have e2 : clientLoopF s.length fd1 rest = pop3ClientLoop fd1 rest :=
            ih s.length (by omega) fd1 rest (by omega)
          simp [clientLoopF, he, hstep, e1, e2]

theorem clientLoopF_iters : ∀ (fuel : Nat) (fd : ClientPOP3Data) (s : List Nat),
    (clientLoopF fuel fd s).iters ≤ s.length := by
  intro fuel
  induction fuel with
  | zero => intro fd s; simp [clientLoopF]
  | succ n ih =>
    intro fd s
    by_cases he : s.isEmpty
    · simp [clientLoopF, he]
    · rcases hstep : clientStep fd s with _ | ⟨fd1, rest, cs⟩
      · have : 1 ≤ s.length := by
          rcases s with _ | _
          · simp at he
          · simp
        simpa [clientLoopF, he, hstep] using this
      · have hr : rest.length < s.length := clientStep_decr hstep
        have := ih fd1 rest
        simp only [clientLoopF, he, hstep]
        simp only [Bool.false_eq_true, if_false]
        omega

/-! ## Lemmas: the CONTINUE loop -/

theorem contLoopF_suff : ∀ (fuel : Nat) (dd : POP3DetectorData) (fl : Flags) (r : List Nat),
    r.length < fuel → contLoopF fuel dd fl r = contLoop dd fl r := by
  intro fuel
  induction fuel using Nat.strong_induction_on with
  | _ fuel ih =>
    intro dd fl r hr
    match fuel, hr with
    | fuel + 1, hr =>
      unfold contLoop
      by_cases he : r.isEmpty
      · simp [contLoopF, he]
      · by_cases hterm : r = [46, 13, 10]
        · simp [contLoopF, he, hterm]
        · rcases hchk : pop3_check_line r with ⟨cr, r2⟩
          cases cr
          · have hlt : r2.length + 2 ≤ r.length := checkLine_term_len r r2 hchk
            have e1 : contLoopF fuel dd fl r2 = contLoop dd fl r2 :=
              ih fuel (by omega) dd fl r2 (by omega)
            have e2 : contLoopF r.length dd fl r2 = contLoop dd fl r2 :=
              ih r.length (by omega) dd fl r2 (by omega)
            simp [contLoopF, he, hterm, hchk, e1, e2]
          · simp [contLoopF, he, hterm, hchk]
          · simp [contLoopF, he, hterm, hchk]

/-- Invariants of the CONTINUE loop: it makes no framework calls, leaves the
flags, the client record, `need_continue`, vendor, version and subtype alone;
only `server.count` and `server.state` can change. -/
theorem contLoopF_inv : ∀ (fuel : Nat) (dd : POP3DetectorData) (fl : Flags) (r : List Nat),
    (contLoopF fuel dd fl r).calls = [] ∧ (contLoopF fuel dd fl r).flags = fl ∧
    (contLoopF fuel dd fl r).dd.client = dd.client ∧
    (contLoopF fuel dd fl r).dd.need_continue = dd.need_continue ∧
    (contLoopF fuel dd fl r).dd.server.vendor = dd.server.vendor ∧
    (contLoopF fuel dd fl r).dd.server.version = dd.server.version ∧
    (contLoopF fuel dd fl r).dd.server.subtype = dd.server.subtype := by
  intro fuel
  induction fuel with
  | zero => intro dd fl r; simp [contLoopF]
  | succ n ih =>
    intro dd fl r
    by_cases he : r.isEmpty
    · simp [contLoopF, he]
    · by_cases hterm : r = [46, 13, 10]
      · simp [contLoopF, he, hterm]
      · rcases hchk : pop3_check_line r with ⟨cr, r2⟩
        cases cr
        · simpa [contLoopF, he, hterm, hchk] using ih dd fl r2
        · simp [contLoopF, he, hterm, hchk]
        · simp [contLoopF, he, hterm, hchk]

/-! ## C4: when does `response_count` increment? -/

/-- Whether the CONTINUE loop run on `r` reaches the `.` CRLF terminator (and
therefore bumps `response_count`). -/
def contTermCond : Nat → List Nat → Bool
  | 0, _ => false
  | fuel + 1, r =>
    if r.isEmpty then false
    else if r = [46, 13, 10] then true
    else
      match pop3_check_line r with
      | (.terminated, r2) => contTermCond fuel r2
      | _ => false

/-- Whether the status-line tail `rest0` (bytes after `+OK`/`-ERR`) leads to a
count increment: the line scanner must not report malformed, and then either
the line consumed the whole payload, or the CONTINUE loop on the leftover
reaches the terminator. -/
def afterStatusInc (rest0 : List Nat) : Bool :=
  match pop3_check_line rest0 with
  | (.malformed, _) => false
  | (_, rest) => if rest.isEmpty then true else contTermCond (rest.length + 1) rest

/-- Count-increment condition for a payload handled in the RESPONSE/CONNECT
states. -/
def statusIncSpec (p : List Nat) : Bool :=
  if p.length < 5 then false
  else if [43, 79, 75].isPrefixOf p then afterStatusInc (p.drop 3)
  else if [45, 69, 82, 82].isPrefixOf p then afterStatusInc (p.drop 4)
  else false

/-- The exact condition under which one `pop3_server_validate` call increments
`response_count`: in CONTINUE, reaching the `.` CRLF terminator; otherwise a
`+OK`/`-ERR` status line that either consumes the whole payload (with or
without a final CRLF) or whose multi-line leftover reaches the terminator.
The `"+ "` SASL-continuation branch never counts. -/
def countIncSpec (dd : POP3DetectorData) (p : List Nat) : Bool :=
  match dd.server.state with
  | .CONTINUE => contTermCond (p.length + 1) p
  | .CONNECT => statusIncSpec p
  | .RESPONSE => if p.take 2 = [43, 32] then false else statusIncSpec p

theorem contLoopF_count : ∀ (fuel : Nat) (dd : POP3DetectorData) (fl : Flags) (r : List Nat),
    (contLoopF fuel dd fl r).dd.server.count =
      dd.server.count + (if contTermCond fuel r then 1 else 0) := by
  intro fuel
  induction fuel with
  | zero => intro dd fl r; simp [contLoopF, contTermCond]
  | succ n ih =>
    intro dd fl r
    by_cases he : r.isEmpty
    · simp [contLoopF, contTermCond, he]
    · by_cases hterm : r = [46, 13, 10]
      · simp [contLoopF, contTermCond, he, hterm]
      · rcases hchk : pop3_check_line r with ⟨cr, r2⟩
        cases cr
        · simpa [contLoopF, contTermCond, he, hterm, hchk] using ih dd fl r2
        · simp [contLoopF, contTermCond, he, hterm, hchk]
        · simp [contLoopF, contTermCond, he, hterm, hchk]

theorem plusCont_dd (dd : POP3DetectorData) (fl : Flags) (p : List Nat) :
    (plusCont dd fl p).dd = dd := by
  unfold plusCont
  rcases h : pop3_check_line (p.drop 2) with ⟨cr, rest⟩
  cases cr <;> simp [h] <;> split <;> rfl

theorem afterStatus_count (dd : POP3DetectorData) (fl : Flags) (rest0 : List Nat)
    (server beginSet : Bool) (p : List Nat) :
    (afterStatus dd fl rest0 server beginSet p).dd.server.count =
      dd.server.count + (if afterStatusInc rest0 then 1 else 0) := by
  rcases hchk : pop3_check_line rest0 with ⟨cr, rest⟩
  cases cr <;> cases hsb : server && beginSet <;>
    by_cases hre : rest.isEmpty <;>
    simp [afterStatus, afterStatusInc, hchk, hsb, hre, contLoop, contLoopF_count]

theorem responseCase_count (dd : POP3DetectorData) (fl : Flags) (p : List Nat)
    (server beginSet : Bool) :
    (responseCase dd fl p server beginSet).dd.server.count =
      dd.server.count + (if statusIncSpec p then 1 else 0) := by
  unfold responseCase statusIncSpec
  split_ifs with h1 h2 h3 <;> simp [afterStatus_count] <;> simp_all

/-- C4 (counterexample): the claim says `response_count` increments only on a
completed server response — a status line terminated by CRLF, or the `.` CRLF
terminator of a multi-line response.  But on the payload `"+OK ab"`, which
contains no CRLF at all (the status line is cut off by the end of the
payload), a fresh flow's count goes from 0 to 1 and the parse reports
success. -/
theorem c4_counterexample :
    (pop3_server_validate freshDD {} [43, 79, 75, 32, 97, 98] true).dd.server.count = 1 ∧
    (pop3_server_validate freshDD {} [43, 79, 75, 32, 97, 98] true).res = .ok ∧
    freshDD.server.count = 0 ∧
    ¬ [13, 10] <:+: [43, 79, 75, 32, 97, 98] ∧
    (pop3_check_line [32, 97, 98]).1 = .incomplete := by
  decide

/-- C4 (amended): `response_count` is incremented (by exactly one) iff the
call either, in the CONTINUE state, reaches a leftover that is exactly
`.` CRLF, or parses a `+OK`/`-ERR` status line whose remainder is consumed to
the end of the payload — *whether or not* a final CRLF was seen — or whose
multi-line leftover reaches the `.` CRLF terminator; no other event
increments it (in particular the `"+ "` continuation branch and all failure
paths leave the count unchanged). -/
theorem c4_count_increment (dd : POP3DetectorData) (fl : Flags) (p : List Nat)
    (server : Bool) :
    (pop3_server_validate dd fl p server).dd.server.count =
      dd.server.count + (if countIncSpec dd p then 1 else 0) := by
  unfold pop3_server_validate countIncSpec
  rcases hst : dd.server.state with _ | _ | _
  · rw [responseCase_count]
  · by_cases hp : p.take 2 = [43, 32]
    · simp [hp, plusCont_dd]
    · simp [hp, responseCase_count]
  · simp [contLoop, contLoopF_count]

/-! ## C5: classification of the line scanner -/

/-- The claim's description of a terminated line: some printable-ASCII prefix
followed by CRLF (and then anything). -/
def termCond (l : List Nat) : Prop :=
  ∃ pre rest, l = pre ++ 13 :: 10 :: rest ∧ printableList pre

theorem checkLine_classes : ∀ l : List Nat,
    ((pop3_check_line l).1 = .terminated ↔ termCond l) ∧
    ((pop3_check_line l).1 = .incomplete ↔ printableList l) := by
  intro l
  induction l with
  | nil =>
    constructor
    · constructor
      · intro h; simp [pop3_check_line] at h
      · rintro ⟨pre, rest, heq, -⟩
        have := congrArg List.length heq
        simp at this
        omega
    · simp [pop3_check_line, printableList]
  | cons b t ih =>
    by_cases hb : b = 13
    · subst hb
      rcases t with _ | ⟨b2, t2⟩
      · constructor
        · constructor
          · intro h; simp [pop3_check_line] at h
          · rintro ⟨pre, rest, heq, hpre⟩
            have := congrArg List.length heq
            simp at this
            omega
        · constructor
          · intro h; simp [pop3_check_line] at h
          · intro h; have h13 := h 13 (by simp); omega
      · by_cases h2 : b2 = 10
        · subst h2
          constructor
          · constructor
            · intro _; exact ⟨[], t2, rfl, by intro x hx; simp at hx⟩
            · intro _; simp [pop3_check_line]
          · constructor
            · intro h; simp [pop3_check_line] at h
            · intro h; have h13 := h 13 (by simp); omega
        · constructor
          · constructor
            · intro h; simp [pop3_check_line, h2] at h
            · rintro ⟨pre, rest, heq, hpre⟩
              rcases pre with _ | ⟨x, pre2⟩
              · simp only [List.nil_append, List.cons.injEq] at heq
                exact (h2 heq.2.1).elim
              · simp only [List.cons_append, List.cons.injEq] at heq
                have := hpre x (by simp)
                omega
          · constructor
            · intro h; simp [pop3_check_line, h2] at h
            · intro h; have h13 := h 13 (by simp); omega
    · by_cases hpb : isPrintByte b = true
      · have hb32 : 32 ≤ b ∧ b ≤ 126 := by simpa [isPrintByte] using hpb
        have heq : pop3_check_line (b :: t) = pop3_check_line t := by
          simp [pop3_check_line, hb, hpb]
        constructor
        · rw [heq, ih.1]
          constructor
          · rintro ⟨pre, rest, h1, hp⟩
            refine ⟨b :: pre, rest, by simp [h1], ?_⟩
            intro x hx
            rcases List.mem_cons.mp hx with rfl | hx2
            · exact hb32
            · exact hp x hx2
          · rintro ⟨pre, rest, h1, hp⟩
            rcases pre with _ | ⟨x, pre2⟩
            · simp only [List.nil_append, List.cons.injEq] at h1
              omega
            · simp only [List.cons_append, List.cons.injEq] at h1
              exact ⟨pre2, rest, h1.2, fun y hy => hp y (List.mem_cons_of_mem _ hy)⟩
        · rw [heq, ih.2]
          constructor
          · intro h x hx
            rcases List.mem_cons.mp hx with rfl | hx2
            · exact hb32
            · exact h x hx2
          · intro h x hx
            exact h x (List.mem_cons_of_mem _ hx)
      · have hnp : ¬ (32 ≤ b ∧ b ≤ 126) := by simpa [isPrintByte] using hpb
        constructor
        · constructor
          · intro h; simp [pop3_check_line, hb, hpb] at h
          · rintro ⟨pre, rest, h1, hp⟩
            rcases pre with _ | ⟨x, pre2⟩
            · simp only [List.nil_append, List.cons.injEq] at h1
              exact (hb h1.1).elim
            · simp only [List.cons_append, List.cons.injEq] at h1
              obtain ⟨rfl, -⟩ := h1
              exact (hnp (hp b (by simp))).elim
        · constructor
          · intro h; simp [pop3_check_line, hb, hpb] at h
          · intro h; exact absurd (h b (by simp)) hnp

/-- C5 (counterexample): the claim classifies "input exhausted before CRLF"
as incomplete and describes malformed as "a byte below 0x20 other than
CR/LF before CRLF, or CR not immediately followed by LF".  But: a lone CR at
the end of input (no CRLF anywhere, input exhausted) is reported malformed,
and the line `0x7F CR LF` — whose only bytes below 0x20 are the CR LF
terminator itself, with CR immediately followed by LF — is also reported
malformed (0x7F is not printable). -/
theorem c5_counterexample :
    (pop3_check_line [13]).1 = .malformed ∧
    ¬ [13, 10] <:+: [13] ∧
    (pop3_check_line [127, 13, 10]).1 = .malformed ∧
    (∀ b ∈ [127, 13, 10], b < 32 → (b = 13 ∨ b = 10)) := by
  decide

/-- C5 (amended): the line scanner returns exactly one of three results, and
they are characterised as follows: `terminated` iff the input is a wholly
printable-ASCII (0x20–0x7E) prefix followed by CRLF; `incomplete` iff every
byte of the input is printable ASCII and the input ends before any CR;
`malformed` otherwise (a byte outside printable ASCII other than the CR of a
CRLF pair — including a bare LF, DEL or bytes ≥ 0x7F — or a CR not
immediately followed by LF, including a CR at the very end of input). -/
theorem c5_checkLine_trichotomy (l : List Nat) :
    ((pop3_check_line l).1 = .terminated ↔ termCond l) ∧
    ((pop3_check_line l).1 = .incomplete ↔ printableList l) ∧
    ((pop3_check_line l).1 = .malformed ↔ (¬ termCond l ∧ ¬ printableList l)) := by
  refine ⟨(checkLine_classes l).1, (checkLine_classes l).2, ?_⟩
  constructor
  · intro h
    constructor
    · intro ht
      have := ((checkLine_classes l).1).mpr ht
      rw [h] at this
      cases this
    · intro hi
      have := ((checkLine_classes l).2).mpr hi
      rw [h] at this
      cases this
  · rintro ⟨h1, h2⟩
    rcases hres : (pop3_check_line l).1 with _ | _ | _
    · exact absurd ((checkLine_classes l).1.mp hres) h1
    · exact absurd ((checkLine_classes l).2.mp hres) h2
    · rfl

/-! ## C7: the Post.Office greeting -/

/-- The bytes of `"+OK Post.Office v3.5.3 release 223 with Rutger version 1.0"`
followed by CRLF. -/
def greetingPO : List Nat :=
  [43, 79, 75, 32, 80, 111, 115, 116, 46, 79, 102, 102, 105, 99, 101, 32, 118,
   51, 46, 53, 46, 51, 32, 114, 101, 108, 101, 97, 115, 101, 32, 50, 50, 51,
   32, 119, 105, 116, 104, 32, 82, 117, 116, 103, 101, 114, 32, 118, 101, 114,
   115, 105, 111, 110, 32, 49, 46, 48, 13, 10]

/-- `"Rutger"`. -/
def rutgerBytes : List Nat := [82, 117, 116, 103, 101, 114]

/-- `"3.5.3 release 223"`. -/
def poVersionBytes : List Nat :=
  [51, 46, 53, 46, 51, 32, 114, 101, 108, 101, 97, 115, 101, 32, 50, 50, 51]

/-- C7 (counterexample): on the claimed greeting the single subtype entry
carries *no* version — the `" version "` token scan requires the version
token to be followed by a space (or NUL) before `line_end`, and `"1.0"` at
the very end of the line runs into the CR and is dropped — whereas the claim
says the subtype is `{service:"Rutger", version:"1.0"}`. -/
theorem c7_counterexample :
    ((pop3_server_validate freshDD {} greetingPO true).dd.server.subtype).map
        (fun s => s.version) = [none] ∧
    (pop3_server_validate freshDD {} greetingPO true).dd.server.subtype ≠
      [⟨rutgerBytes, some [49, 46, 48]⟩] := by
  decide

/-- C7 (amended): parsing the greeting
`"+OK Post.Office v3.5.3 release 223 with Rutger version 1.0" CRLF` from a
fresh flow (service caller) succeeds and leaves vendor `"Post.Office"`,
version `"3.5.3 release 223"`, and exactly one subtype entry with service
`"Rutger"` and no version, with `response_count` 1. -/
theorem c7_postoffice_greeting :
    (pop3_server_validate freshDD {} greetingPO true).res = .ok ∧
    (pop3_server_validate freshDD {} greetingPO true).dd.server.vendor = some venPO ∧
    (pop3_server_validate freshDD {} greetingPO true).dd.server.version = poVersionBytes ∧
    (pop3_server_validate freshDD {} greetingPO true).dd.server.subtype =
      [⟨rutgerBytes, none⟩] ∧
    (pop3_server_validate freshDD {} greetingPO true).dd.server.count = 1 := by
  decide

/-! ## C3: a failed pattern match is terminal -/

/-- C3: on any client payload whose first command has no anchored pattern
match, the client parser clears `need_continue`, sets CLIENT_DETECTED,
returns SUCCESS, and assigns no app (no add_app call is made). -/
theorem c3_unrecognized_client_terminal (dd0 : Option POP3DetectorData) (fl : Flags)
    (p : List Nat) (hp : p ≠ []) (hm : pop3_pattern_match p = none) :
    (pop3ClientValidate dd0 fl false p).res = .SUCCESS ∧
    ((pop3ClientValidate dd0 fl false p).dd.getD freshDD).need_continue = false ∧
    (pop3ClientValidate dd0 fl false p).flags.clientDetected = true ∧
    (pop3ClientValidate dd0 fl false p).calls.filter isAddApp = [] ∧
    FwCall.setFlag .CLIENT_DETECTED ∈ (pop3ClientValidate dd0 fl false p).calls := by
  rcases p with _ | ⟨b, t⟩
  · exact absurd rfl hp
  · have hloop : ∀ fd : ClientPOP3Data, pop3ClientLoop fd (b :: t) = ⟨fd, [], true, 1⟩ := by
      intro fd
      simp [pop3ClientLoop, clientLoopF, clientStep, hm]
    by_cases hi : ((dd0.getD freshDD)).client.set_flags
    · simp [pop3ClientValidate, hi, hloop, isAddApp]
    · simp [pop3ClientValidate, hi, hloop, isAddApp]

/-- The first payload of the spec's non-POP3 scenario: `"GET / HTTP/1.1" CRLF`. -/
def getPayload : List Nat := [71, 69, 84, 32, 47, 32, 72, 84, 84, 80, 47, 49, 46, 49, 13, 10]

theorem c3_witness :
    (pop3ClientValidate none {} false getPayload).res = .SUCCESS ∧
    ((pop3ClientValidate none {} false getPayload).dd.getD freshDD).need_continue = false ∧
    (pop3ClientValidate none {} false getPayload).flags.clientDetected = true ∧
    (pop3ClientValidate none {} false getPayload).calls.filter isAddApp = [] ∧
    FwCall.setFlag .CLIENT_DETECTED ∈ (pop3ClientValidate none {} false getPayload).calls :=
  c3_unrecognized_client_terminal none {} getPayload (by decide) (by decide)

/-! ## C9: client parser progress and linear iteration bound -/

/-- C9: every iteration of the client command loop that continues strictly
advances the cursor (the matched pattern is nonempty and all subsequent scans
only drop bytes), so one call of the client parser performs at most
`s.length` loop iterations — the loop terminates and its iteration count is
linear in the input length.  (In this list-based embedding the parser is a
function of exactly the payload bytes, so it cannot consult bytes beyond
`end`.) -/
theorem c9_client_linear :
    (∀ (fd : ClientPOP3Data) (s : List Nat) (fd1 : ClientPOP3Data) (rest : List Nat)
        (cs : List FwCall), clientStep fd s = .step fd1 rest cs → rest.length < s.length) ∧
    (∀ (fd : ClientPOP3Data) (s : List Nat), (pop3ClientLoop fd s).iters ≤ s.length) :=
  ⟨fun _ _ _ _ _ h => clientStep_decr h,
   fun fd s => clientLoopF_iters (s.length + 1) fd s⟩

theorem c9_witness :
    ([] : List Nat).length < [83, 84, 65, 84, 13, 10].length ∧
    (pop3ClientLoop {} [83, 84, 65, 84, 13, 10]).iters ≤ [83, 84, 65, 84, 13, 10].length :=
  ⟨c9_client_linear.1 {} [83, 84, 65, 84, 13, 10] {} [] [] (by decide),
   c9_client_linear.2 {} [83, 84, 65, 84, 13, 10]⟩

/-! ## C1: the STLS_PENDING correlation -/

theorem findPatFrom_cons_pos {s : List Nat} {k : Nat} {ks : List Nat}
    (hk : (pat k).isPrefixOf s = true) : findPatFrom s (k :: ks) = some (k + 1) := by
  simp [findPatFrom, hk]

theorem findPatFrom_cons_neg {s : List Nat} {k : Nat} {ks : List Nat} {j : Nat}
    (hk : ¬ (pat k).isPrefixOf s = true) (h : findPatFrom s (k :: ks) = some j) :
    findPatFrom s ks = some j := by
  simpa [findPatFrom, hk] using h

/-- The matcher can never report pattern 8 (`AUTH \x20\n`, 1-based): whenever
that pattern is a prefix of the window, so is the strictly earlier `AUTH \x20`
(1-based pattern 4), which the table-order search finds first. -/
theorem pattern_match_ne_8 (s : List Nat) : pop3_pattern_match s ≠ some 8 := by
  intro h
  rw [pop3_pattern_match,
    show patIdxList = 0 :: 1 :: 2 :: 3 :: 4 :: 5 :: 6 :: 7 ::
      [8, 9, 10, 11, 12, 13, 14, 15, 16, 17, 18, 19, 20, 21, 22, 23, 24, 25, 26, 27, 28]
      from rfl] at h
  by_cases c0 : (pat 0).isPrefixOf s
  · rw [findPatFrom_cons_pos c0] at h; simp at h
  replace h := findPatFrom_cons_neg c0 h
  by_cases c1 : (pat 1).isPrefixOf s
  · rw [findPatFrom_cons_pos c1] at h; simp at h
  replace h := findPatFrom_cons_neg c1 h
  by_cases c2 : (pat 2).isPrefixOf s
  · rw [findPatFrom_cons_pos c2] at h; simp at h
  replace h := findPatFrom_cons_neg c2 h
  by_cases c3 : (pat 3).isPrefixOf s
  · rw [findPatFrom_cons_pos c3] at h; simp at h
  replace h := findPatFrom_cons_neg c3 h
  by_cases c4 : (pat 4).isPrefixOf s
  · rw [findPatFrom_cons_pos c4] at h; simp at h
  replace h := findPatFrom_cons_neg c4 h
  by_cases c5 : (pat 5).isPrefixOf s
  · rw [findPatFrom_cons_pos c5] at h; simp at h
  replace h := findPatFrom_cons_neg c5 h
  by_cases c6 : (pat 6).isPrefixOf s
  · rw [findPatFrom_cons_pos c6] at h; simp at h
  replace h := findPatFrom_cons_neg c6 h
  by_cases c7 : (pat 7).isPrefixOf s
  · exact c3 (List.isPrefixOf_iff_prefix.mpr
      (List.IsPrefix.trans (by decide) (List.isPrefixOf_iff_prefix.mp c7)))
  replace h := findPatFrom_cons_neg c7 h
  obtain ⟨k, hk, hj, -⟩ := findPatFrom_some s _ 8 h
  have hk7 : k = 7 := by omega
  subst hk7
  revert hk
  decide

theorem stls_err_helper : ∀ (dd : POP3DetectorData) (fl : Flags) (srv : Bool) (mid : List Nat),
    dd.client.state = .STLS_CMD → dd.server.state ≠ .CONTINUE → printableList mid →
    (pop3_server_validate dd fl (errLine mid) srv).dd.client.state = .AUTH ∧
    (pop3_server_validate dd fl (errLine mid) srv).calls = [] := by
  intro dd fl srv mid h1 h2 h3
  have hchk : pop3_check_line (mid ++ 13 :: 10 :: ([] : List Nat)) = (.terminated, []) :=
    checkLine_printable mid [] h3
  have hlen : ¬ (errLine mid).length < 5 := by simp [errLine]
  have hpOK : [43, 79, 75].isPrefixOf (errLine mid) = false := by
    simp [errLine, List.isPrefixOf]
  have hpERR : [45, 69, 82, 82].isPrefixOf (errLine mid) = true := by
    simp [errLine, List.isPrefixOf]
  have htk : ¬ (errLine mid).take 2 = [43, 32] := by simp [errLine]
  have hdrop : (errLine mid).drop 4 = mid ++ 13 :: 10 :: [] := by simp [errLine]
  rcases hs : dd.server.state with _ | _ | _
  · simp [pop3_server_validate, hs, responseCase, hlen, hpOK, hpERR, hdrop,
      afterStatus, hchk, pop3Correlate, h1]
  · simp [pop3_server_validate, hs, responseCase, hlen, hpOK, hpERR, htk, hdrop,
      afterStatus, hchk, pop3Correlate, h1]
  · exact absurd hs h2

theorem stls_ok_helper : ∀ (dd : POP3DetectorData) (fl : Flags) (srv : Bool) (mid : List Nat),
    dd.client.state = .STLS_CMD → dd.server.state ≠ .CONTINUE → printableList mid →
    (pop3_server_validate dd fl (okLine mid) srv).flags.encrypted = true ∧
    (pop3_server_validate dd fl (okLine mid) srv).flags.cgsp = false ∧
    (pop3_server_validate dd fl (okLine mid) srv).calls =
      [.setFlag .ENCRYPTED, .clearFlag .CLIENT_GETS_SERVER_PACKETS, .addApp .POP3S .POP3S] ∧
    (pop3_server_validate dd fl (okLine mid) srv).res = .ok := by
  intro dd fl srv mid h1 h2 h3
  have hchk : pop3_check_line (mid ++ 13 :: 10 :: ([] : List Nat)) = (.terminated, []) :=
    checkLine_printable mid [] h3
  have hlen : ¬ (okLine mid).length < 5 := by simp [okLine]
  have hpOK : [43, 79, 75].isPrefixOf (okLine mid) = true := by
    simp [okLine, List.isPrefixOf]
  have htk : ¬ (okLine mid).take 2 = [43, 32] := by simp [okLine]
  have hdrop : (okLine mid).drop 3 = mid ++ 13 :: 10 :: [] := by simp [okLine]
  rcases hs : dd.server.state with _ | _ | _
  · simp [pop3_server_validate, hs, responseCase, hlen, hpOK, hdrop,
      afterStatus, hchk, pop3Correlate, h1]
  · simp [pop3_server_validate, hs, responseCase, hlen, hpOK, htk, hdrop,
      afterStatus, hchk, pop3Correlate, h1]
  · exact absurd hs h2

theorem stls_entry_helper : ∀ (fd : ClientPOP3Data) (s : List Nat) (fd1 : ClientPOP3Data)
    (rest : List Nat) (cs : List FwCall),
    clientStep fd s = .step fd1 rest cs → fd1.state = .STLS_CMD →
    fd.state ≠ .TRANS ∧ pop3_pattern_match s = some 9 := by
  intro fd s fd1 rest cs h hstls
  unfold clientStep at h
  rcases hm : pop3_pattern_match s with _ | j
  · rw [hm] at h; simp at h
  · rw [hm] at h
    simp only at h
    by_cases ht : fd.state = .TRANS
    · rw [if_pos ht] at h
      simp only [ClientStepRes.step.injEq] at h
      obtain ⟨hfd, -, -⟩ := h
      rw [← hfd] at hstls
      by_cases h10 : 10 ≤ j
      · simp [h10, ht] at hstls
      · simp [h10, ht] at hstls
    · rw [if_neg ht] at h
      refine ⟨ht, ?_⟩
      unfold authDispatch at h
      split_ifs at h with hA hB hC hD hE
      · rcases hA with h8 | h9
        · subst h8; exact absurd hm (pattern_match_ne_8 s)
        · subst h9; rfl
      · simp only [ClientStepRes.step.injEq] at h
        obtain ⟨hfd, -, -⟩ := h
        rw [← hfd] at hstls
        by_cases hj2 : j = 2 <;> simp [hj2] at hstls
      · simp only [ClientStepRes.step.injEq] at h
        obtain ⟨hfd, -, -⟩ := h
        rw [← hfd] at hstls
        simp at hstls
      · simp only [ClientStepRes.step.injEq] at h
        obtain ⟨hfd, -, -⟩ := h
        rw [← hfd] at hstls
        simp at hstls
      · simp only [ClientStepRes.step.injEq] at h
        obtain ⟨hfd, -, -⟩ := h
        rw [← hfd] at hstls
        simp at hstls
      · simp only [ClientStepRes.step.injEq] at h
        obtain ⟨hfd, -, -⟩ := h
        rw [← hfd] at hstls
        simp at hstls
      · simp only [ClientStepRes.step.injEq] at h
        obtain ⟨hfd, -, -⟩ := h
        rw [← hfd] at hstls
        simp at hstls
      · simp only [ClientStepRes.step.injEq] at h
        obtain ⟨hfd, -, -⟩ := h
        rw [← hfd] at hstls
        simp at hstls

/-- C1: for a flow whose client sub-state is STLS_PENDING, when the server
parser completes a status line: on `-ERR` the client sub-state reverts to
AUTH and no framework call at all (in particular no add_app) is made; on
`+OK` the session flag ENCRYPTED is set, CLIENT_GETS_SERVER_PACKETS is
cleared, and POP3S is reported via add_app exactly once — the call list is
exactly `[setFlag ENCRYPTED, clearFlag CLIENT_GETS_SERVER_PACKETS,
addApp POP3S POP3S]`.  Moreover STLS_PENDING is entered by the client
command loop only from the (possibly just-downgraded) AUTH dispatch, on the
`STLS` CRLF pattern (index 9). -/
theorem c1_stls_pending :
    (∀ (dd : POP3DetectorData) (fl : Flags) (srv : Bool) (mid : List Nat),
      dd.client.state = .STLS_CMD → dd.server.state ≠ .CONTINUE → printableList mid →
      (pop3_server_validate dd fl (errLine mid) srv).dd.client.state = .AUTH ∧
      (pop3_server_validate dd fl (errLine mid) srv).calls = []) ∧
    (∀ (dd : POP3DetectorData) (fl : Flags) (srv : Bool) (mid : List Nat),
      dd.client.state = .STLS_CMD → dd.server.state ≠ .CONTINUE → printableList mid →
      (pop3_server_validate dd fl (okLine mid) srv).flags.encrypted = true ∧
      (pop3_server_validate dd fl (okLine mid) srv).flags.cgsp = false ∧
      (pop3_server_validate dd fl (okLine mid) srv).calls =
        [.setFlag .ENCRYPTED, .clearFlag .CLIENT_GETS_SERVER_PACKETS, .addApp .POP3S .POP3S] ∧
      (pop3_server_validate dd fl (okLine mid) srv).res = .ok) ∧
    (∀ (fd : ClientPOP3Data) (s : List Nat) (fd1 : ClientPOP3Data) (rest : List Nat)
        (cs : List FwCall),
      clientStep fd s = .step fd1 rest cs → fd1.state = .STLS_CMD →
      fd.state ≠ .TRANS ∧ pop3_pattern_match s = some 9) :=
  ⟨stls_err_helper, stls_ok_helper, stls_entry_helper⟩

/-- A per-flow record whose client is in the STLS-pending hybrid state. -/
def ddStls : POP3DetectorData := { client := { state := .STLS_CMD } }

theorem c1_witness :
    ((pop3_server_validate ddStls {} (errLine [32, 110, 111]) true).dd.client.state = .AUTH ∧
     (pop3_server_validate ddStls {} (errLine [32, 110, 111]) true).calls = []) ∧
    ((pop3_server_validate ddStls {} (okLine [32, 114, 101, 97, 100, 121]) true).flags.encrypted
        = true ∧
     (pop3_server_validate ddStls {} (okLine [32, 114, 101, 97, 100, 121]) true).flags.cgsp
        = false ∧
     (pop3_server_validate ddStls {} (okLine [32, 114, 101, 97, 100, 121]) true).calls =
       [.setFlag .ENCRYPTED, .clearFlag .CLIENT_GETS_SERVER_PACKETS, .addApp .POP3S .POP3S] ∧
     (pop3_server_validate ddStls {} (okLine [32, 114, 101, 97, 100, 121]) true).res = .ok) ∧
    (({} : ClientPOP3Data).state ≠ .TRANS ∧
     pop3_pattern_match [83, 84, 76, 83, 13, 10] = some 9) :=
  ⟨c1_stls_pending.1 ddStls {} true [32, 110, 111] (by decide) (by decide)
     (by unfold printableList; decide),
   c1_stls_pending.2.1 ddStls {} true [32, 114, 101, 97, 100, 121]
     (by decide) (by decide) (by unfold printableList; decide),
   c1_stls_pending.2.2 {} [83, 84, 76, 83, 13, 10] { state := .STLS_CMD } [] []
     (by decide) (by decide)⟩

/-! ## C6: username capture -/

theorem userChar_bytes {b : Nat} (h : isUserChar b = true) :
    b ≠ 13 ∧ b ≠ 10 ∧ b ≠ 32 ∧ b ≠ 96 := by
  simp [isUserChar, isAlnumByte] at h
  omega

/-- Running the capture loop on a separator-terminated run of storable
characters: the name is stored iff it is nonempty and the separator arrives
while the buffer still has room (fewer than 248 bytes stored); otherwise the
loop exits with the buffer full and stores nothing. -/
theorem captureUser_run (old : Option (List Nat)) (r : List Nat) :
    ∀ (u : List Nat), (∀ b ∈ u, isUserChar b = true) → ∀ acc : List Nat,
    captureUser old (u ++ 13 :: r) acc false =
      if acc.length + u.length < 248 then
        ((if (acc ++ u).isEmpty then old else some (acc ++ u)), 13 :: r)
      else (old, u.drop (248 - acc.length) ++ 13 :: r) := by
  intro u
  induction u with
  | nil =>
    intro _ acc
    by_cases h248 : acc.length < 248
    · simp [captureUser, h248, show isUserChar 13 = false by decide]
    · simp [captureUser, h248]
  | cons b u ih =>
    intro hu acc
    have hb := hu b (List.mem_cons_self b u)
    obtain ⟨h13, h10, h32, h96⟩ := userChar_bytes hb
    have hu2 : ∀ x ∈ u, isUserChar x = true := fun x hx => hu x (List.mem_cons_of_mem _ hx)
    by_cases h248 : acc.length < 248
    · have hstep : captureUser old ((b :: u) ++ 13 :: r) acc false =
          captureUser old (u ++ 13 :: r) (acc.concat b) false := by
        simp [captureUser, h248, hb]
      rw [hstep, ih hu2 (acc.concat b)]
      have hlc : (acc.concat b).length = acc.length + 1 := by simp
      have hca : acc.concat b ++ u = acc ++ b :: u := by simp
      by_cases hc : acc.length + (b :: u).length < 248
      · have hc2 : (acc.concat b).length + u.length < 248 := by simp at hc ⊢; omega
        rw [if_pos hc2, if_pos hc, hca]
      · have hc2 : ¬ (acc.concat b).length + u.length < 248 := by simp at hc ⊢; omega
        rw [if_neg hc2, if_neg hc]
        have hd : 248 - acc.length = (248 - (acc.concat b).length) + 1 := by
          simp; omega
        rw [hd]
        simp [List.drop]
    · have hc : ¬ acc.length + (b :: u).length < 248 := by simp; omega
      have hz : 248 - acc.length = 0 := by omega
      rw [if_neg hc, hz]
      simp [captureUser, h248]

theorem skipToEol_run (u r : List Nat) (hu : ∀ b ∈ u, isUserChar b = true) :
    skipToEol (u ++ 13 :: r) = 13 :: r := by
  induction u with
  | nil => simp [skipToEol]
  | cons b t ih =>
    have hb := hu b (List.mem_cons_self b t)
    obtain ⟨h13, h10, -, -⟩ := userChar_bytes hb
    have ht : ∀ x ∈ t, isUserChar x = true := fun x hx => hu x (List.mem_cons_of_mem _ hx)
    have hpb : (decide (b ≠ 13 ∧ b ≠ 10)) = true := by simp [h13, h10]
    simp only [List.cons_append, skipToEol, List.dropWhile_cons, hpb, if_true]
    simpa [skipToEol] using ih ht

theorem clientLoopF_nil (fuel : Nat) (fd : ClientPOP3Data) :
    clientLoopF fuel fd [] = ⟨fd, [], false, 0⟩ := by
  cases fuel <;> simp [clientLoopF]

/-- Running the client detector on one freshly-seen payload that the command
loop consumes in a single iteration. -/
theorem clientValidate_single (fd1 : ClientPOP3Data) (b : Nat) (t : List Nat)
    (hstep : clientStep { set_flags := true } (b :: t) = .step fd1 [] []) :
    (pop3ClientValidate none {} false (b :: t)).res = .INPROCESS ∧
    ((pop3ClientValidate none {} false (b :: t)).dd.getD freshDD).client = fd1 := by
  have hloop : pop3ClientLoop { set_flags := true } (b :: t) = ⟨fd1, [], false, 1⟩ := by
    unfold pop3ClientLoop
    simp [clientLoopF, hstep, clientLoopF_nil]
  simp [pop3ClientValidate, freshDD, hloop]

theorem match_pass (w : List Nat) :
    pop3_pattern_match (80 :: 65 :: 83 :: 83 :: 32 :: w) = some 2 := by
  simp [pop3_pattern_match, patIdxList, findPatFrom, pat, List.isPrefixOf]

theorem match_user (w : List Nat) :
    pop3_pattern_match (85 :: 83 :: 69 :: 82 :: 32 :: w) = some 1 := by
  simp [pop3_pattern_match, patIdxList, findPatFrom, pat, List.isPrefixOf]

theorem match_apop (w : List Nat) :
    pop3_pattern_match (65 :: 80 :: 79 :: 80 :: 32 :: w) = some 3 := by
  simp [pop3_pattern_match, patIdxList, findPatFrom, pat, List.isPrefixOf]

theorem skipToEol_crlf (r : List Nat) : skipToEol (13 :: r) = 13 :: r := rfl

theorem skipCrlf_crlf : skipCrlf (13 :: [10]) = [] := rfl

theorem pass_step_short (u : List Nat) (hu : ∀ b ∈ u, isUserChar b = true) (hne : u ≠ [])
    (hlen : u.length < 248) :
    clientStep { set_flags := true } (80 :: 65 :: 83 :: 83 :: 32 :: (u ++ [13, 10])) =
      .step { username := some u, state := .TRANS, set_flags := true } [] [] := by
  have hcap : captureUser none (u ++ 13 :: [10]) [] false = (some u, 13 :: [10]) := by
    rw [captureUser_run none [10] u hu []]
    simp [hlen, hne]
  have hplen : (pat (2 - 1)).length = 5 := rfl
  simp [clientStep, match_pass, authDispatch, hplen, hcap, skipToEol_crlf, skipCrlf_crlf]

theorem pass_step_long (u : List Nat) (hu : ∀ b ∈ u, isUserChar b = true)
    (hlen : ¬ u.length < 248) :
    clientStep { set_flags := true } (80 :: 65 :: 83 :: 83 :: 32 :: (u ++ [13, 10])) =
      .step { username := none, state := .TRANS, set_flags := true } [] [] := by
  have hcap : captureUser none (u ++ 13 :: [10]) [] false =
      (none, u.drop 248 ++ 13 :: [10]) := by
    rw [captureUser_run none [10] u hu []]
    simp [hlen]
  have hsk : skipToEol (u.drop 248 ++ 13 :: [10]) = 13 :: [10] :=
    skipToEol_run _ _ (fun b hb => hu b (List.mem_of_mem_drop hb))
  have hplen : (pat (2 - 1)).length = 5 := rfl
  simp [clientStep, match_pass, authDispatch, hplen, hcap, hsk, skipCrlf_crlf]

theorem user_step (u : List Nat) (hu : ∀ b ∈ u, isUserChar b = true) :
    clientStep { set_flags := true } (85 :: 83 :: 69 :: 82 :: 32 :: (u ++ [13, 10])) =
      .step { set_flags := true } [] [] := by
  have hsk : skipToEol (u ++ 13 :: [10]) = 13 :: [10] := skipToEol_run u [10] hu
  have hplen : (pat 0).length = 5 := rfl
  have heoc : eocIdx 1 = false := rfl
  simp [clientStep, match_user, authDispatch, hplen, heoc, hsk, skipCrlf_crlf]

theorem apop_step (u : List Nat) (hu : ∀ b ∈ u, isUserChar b = true) :
    clientStep { set_flags := true } (65 :: 80 :: 79 :: 80 :: 32 :: (u ++ [13, 10])) =
      .step { state := .TRANS, set_flags := true } [] [] := by
  have hsk : skipToEol (u ++ 13 :: [10]) = 13 :: [10] := skipToEol_run u [10] hu
  have hplen : (pat 2).length = 5 := rfl
  simp [clientStep, match_apop, authDispatch, hplen, hsk, skipCrlf_crlf]

set_option maxRecDepth 40000 in
/-- C6 (counterexample): the claim says a USER (or APOP) username is
truncated to at most 252 bytes and that a 252-byte allowed-character name is
stored in full.  In fact `USER` followed by 252 `a`s stores no username at
all (the 1-based matcher index lands in the `PATTERN_PASS` case of the
0-based switch), and even the branch that does capture (reached for `PASS`)
drops a 252-byte name entirely (buffer full before the separator), while a
247-byte name is stored in full. -/
theorem c6_counterexample :
    ((pop3ClientValidate none {} false
        ([85, 83, 69, 82, 32] ++ List.replicate 252 97 ++ [13, 10])).dd.getD
        freshDD).client.username = none ∧
    ((pop3ClientValidate none {} false
        ([80, 65, 83, 83, 32] ++ List.replicate 252 97 ++ [13, 10])).dd.getD
        freshDD).client.username = none ∧
    ((pop3ClientValidate none {} false
        ([80, 65, 83, 83, 32] ++ List.replicate 247 97 ++ [13, 10])).dd.getD
        freshDD).client.username = some (List.replicate 247 97) := by
  decide

/-- C6 (amended): due to the off-by-one between the 1-based matcher index and
the 0-based pattern enum in the dispatch switch, `USER` runs the PASS logic
and `APOP` runs the AUTH-argument logic (moving to TRANS) — neither captures
a username.  The capture branch runs for `PASS` (which also moves the client
to TRANS); it stores the name only when the separator arrives while fewer
than 248 bytes are buffered, so at most 247 bytes are ever stored, and a
longer name is dropped entirely rather than truncated. -/
theorem c6_username_capture (u : List Nat) (hu : ∀ b ∈ u, isUserChar b = true)
    (hne : u ≠ []) :
    (((pop3ClientValidate none {} false
          ([80, 65, 83, 83, 32] ++ u ++ [13, 10])).dd.getD freshDD).client.username =
        (if u.length < 248 then some u else none) ∧
     ((pop3ClientValidate none {} false
          ([80, 65, 83, 83, 32] ++ u ++ [13, 10])).dd.getD freshDD).client.state = .TRANS) ∧
    (((pop3ClientValidate none {} false
          ([85, 83, 69, 82, 32] ++ u ++ [13, 10])).dd.getD freshDD).client.username = none ∧
     ((pop3ClientValidate none {} false
          ([85, 83, 69, 82, 32] ++ u ++ [13, 10])).dd.getD freshDD).client.state = .AUTH) ∧
    (((pop3ClientValidate none {} false
          ([65, 80, 79, 80, 32] ++ u ++ [13, 10])).dd.getD freshDD).client.username = none ∧
     ((pop3ClientValidate none {} false
          ([65, 80, 79, 80, 32] ++ u ++ [13, 10])).dd.getD freshDD).client.state = .TRANS) := by
  refine ⟨?_, ?_, ?_⟩
  · by_cases hlen : u.length < 248
    · have hrun := clientValidate_single _ 80 (65 :: 83 :: 83 :: 32 :: (u ++ [13, 10]))
        (pass_step_short u hu hne hlen)
      simp only [List.cons_append, List.nil_append]
      rw [hrun.2]
      simp [hlen]
    · have hrun := clientValidate_single _ 80 (65 :: 83 :: 83 :: 32 :: (u ++ [13, 10]))
        (pass_step_long u hu hlen)
      simp only [List.cons_append, List.nil_append]
      rw [hrun.2]
      simp [hlen]
  · have hrun := clientValidate_single _ 85 (83 :: 69 :: 82 :: 32 :: (u ++ [13, 10]))
      (user_step u hu)
    simp only [List.cons_append, List.nil_append]
    rw [hrun.2]
    simp
  · have hrun := clientValidate_single _ 65 (80 :: 79 :: 80 :: 32 :: (u ++ [13, 10]))
      (apop_step u hu)
    simp only [List.cons_append, List.nil_append]
    rw [hrun.2]
    simp

theorem c6_witness :
    (((pop3ClientValidate none {} false
          ([80, 65, 83, 83, 32] ++ [97, 108, 105, 99, 101] ++ [13, 10])).dd.getD
          freshDD).client.username =
        (if ([97, 108, 105, 99, 101] : List Nat).length < 248
          then some [97, 108, 105, 99, 101] else none) ∧
     ((pop3ClientValidate none {} false
          ([80, 65, 83, 83, 32] ++ [97, 108, 105, 99, 101] ++ [13, 10])).dd.getD
          freshDD).client.state = .TRANS) ∧
    (((pop3ClientValidate none {} false
          ([85, 83, 69, 82, 32] ++ [97, 108, 105, 99, 101] ++ [13, 10])).dd.getD
          freshDD).client.username = none ∧
     ((pop3ClientValidate none {} false
          ([85, 83, 69, 82, 32] ++ [97, 108, 105, 99, 101] ++ [13, 10])).dd.getD
          freshDD).client.state = .AUTH) ∧
    (((pop3ClientValidate none {} false
          ([65, 80, 79, 80, 32] ++ [97, 108, 105, 99, 101] ++ [13, 10])).dd.getD
          freshDD).client.username = none ∧
     ((pop3ClientValidate none {} false
          ([65, 80, 79, 80, 32] ++ [97, 108, 105, 99, 101] ++ [13, 10])).dd.getD
          freshDD).client.state = .TRANS) :=
  c6_username_capture [97, 108, 105, 99, 101] (by decide) (by decide)

/-! ## C2: the service-identified report -/

theorem correlate_props (cl : ClientPOP3Data) (e nc : Bool) (fl : Flags) :
    (pop3Correlate cl e nc fl).2.2.1.serviceDetected = fl.serviceDetected ∧
    ((pop3Correlate cl e nc fl).2.2.2).filter isAddService = [] := by
  unfold pop3Correlate
  rcases hcu : cl.username with _ | u <;> split_ifs <;> simp [hcu, isAddService]

theorem contLoop_flags (dd : POP3DetectorData) (fl : Flags) (r : List Nat) :
    (contLoop dd fl r).flags = fl := (contLoopF_inv _ dd fl r).2.1

theorem contLoop_calls (dd : POP3DetectorData) (fl : Flags) (r : List Nat) :
    (contLoop dd fl r).calls = [] := (contLoopF_inv _ dd fl r).1

theorem afterStatus_props (dd : POP3DetectorData) (fl : Flags) (rest0 : List Nat)
    (srv bg : Bool) (p : List Nat) :
    (afterStatus dd fl rest0 srv bg p).flags.serviceDetected = fl.serviceDetected ∧
    ((afterStatus dd fl rest0 srv bg p).calls).filter isAddService = [] := by
  obtain ⟨hc1, hc2⟩ := correlate_props dd.client dd.server.error dd.need_continue fl
  unfold afterStatus
  rcases hchk : pop3_check_line rest0 with ⟨cr, rest⟩
  cases cr <;> by_cases hre : rest.isEmpty <;> cases hsb : srv && bg <;>
    simp [hchk, hre, hsb, contLoop_flags, contLoop_calls, hc1, hc2, List.filter_append]

theorem serverValidate_props (dd : POP3DetectorData) (fl : Flags) (p : List Nat) (srv : Bool) :
    (pop3_server_validate dd fl p srv).flags.serviceDetected = fl.serviceDetected ∧
    ((pop3_server_validate dd fl p srv).calls).filter isAddService = [] := by
  unfold pop3_server_validate
  rcases hst : dd.server.state with _ | _ | _
  · unfold responseCase
    split_ifs <;> simp [afterStatus_props]
  · by_cases hp2 : p.take 2 = [43, 32]
    · simp only [hp2, if_pos]
      unfold plusCont
      rcases hchk : pop3_check_line (p.drop 2) with ⟨cr, rest⟩
      cases cr <;> simp [hchk] <;> split <;> simp
    · simp only [hp2, if_neg, if_false]
      unfold responseCase
      split_ifs <;> simp [afterStatus_props]
  · simp [contLoop_flags, contLoop_calls]

/-- The session-flag state after the service detector's preamble (clear
CLIENT_GETS_SERVER_PACKETS, then set or clear CONTINUE from
`need_continue`). -/
def svcPreFlags (dd : POP3DetectorData) (fl : Flags) : Flags :=
  if dd.need_continue then { fl with cgsp := false, sessCont := true }
  else { fl with cgsp := false, sessCont := false }

/-- The framework calls of that preamble. -/
def svcPreCalls (dd : POP3DetectorData) : List FwCall :=
  [.clearFlag .CLIENT_GETS_SERVER_PACKETS] ++
    (if dd.need_continue then [.setFlag .CONTINUE] else [.clearFlag .CONTINUE])

/-- C2: when the service detector's server parse succeeds and afterwards
`response_count ≥ 4` with the SERVICE_DETECTED flag not set, the call returns
SUCCESS and emits exactly one `add_service_consume_subtype`, carrying POP3S
iff the client sub-state is STLS_PENDING (else POP3), the captured vendor,
the version only when it is non-empty, and the accumulated subtype list; the
flow state's subtype list is then cleared (ownership moved out). -/
theorem c2_service_report (dd dd1 : POP3DetectorData) (fl fl1 : Flags) (p : List Nat)
    (cs : List FwCall) (hp : p ≠ []) (hsd : fl.serviceDetected = false)
    (hsrv : pop3_server_validate dd (svcPreFlags dd fl) p true = ⟨.ok, dd1, fl1, cs⟩)
    (hcount : 4 ≤ dd1.server.count) :
    (pop3ServiceValidate (some dd) fl true p).res = .SUCCESS ∧
    (pop3ServiceValidate (some dd) fl true p).dd = some { dd1 with server.subtype := [] } ∧
    (pop3ServiceValidate (some dd) fl true p).calls =
      svcPreCalls dd ++ cs ++
        [.addService (if dd1.client.state = .STLS_CMD then .POP3S else .POP3)
          dd1.server.vendor
          (if dd1.server.version.isEmpty then none else some dd1.server.version)
          dd1.server.subtype] ∧
    ((pop3ServiceValidate (some dd) fl true p).calls).filter isAddService =
      [.addService (if dd1.client.state = .STLS_CMD then .POP3S else .POP3)
        dd1.server.vendor
        (if dd1.server.version.isEmpty then none else some dd1.server.version)
        dd1.server.subtype] := by
  have hy : (svcPreFlags dd fl).serviceDetected = false := by
    unfold svcPreFlags
    split <;> simp [hsd]
  have hsd1 : fl1.serviceDetected = false := by
    have hx := (serverValidate_props dd (svcPreFlags dd fl) p true).1
    rw [hsrv] at hx
    simpa [hy] using hx
  have hcs : cs.filter isAddService = [] := by
    have hx := (serverValidate_props dd (svcPreFlags dd fl) p true).2
    rw [hsrv] at hx
    simpa using hx
  have hpe : p.isEmpty = false := List.isEmpty_eq_false.mpr hp
  by_cases hnc : dd.need_continue
  · have hflags : svcPreFlags dd fl = { fl with cgsp := false, sessCont := true } := by
      simp [svcPreFlags, hnc]
    rw [hflags] at hsrv
    rw [hsd] at hsrv
    unfold pop3ServiceValidate pop3ServiceValidate.pop3ServiceCore
    simp [hpe, hnc, hsrv, hcount, hsd1, hsd, svcPreCalls, List.filter_append, hcs, isAddService]
  · have hflags : svcPreFlags dd fl = { fl with cgsp := false, sessCont := false } := by
      simp [svcPreFlags, hnc]
    rw [hflags] at hsrv
    rw [hsd] at hsrv
    unfold pop3ServiceValidate pop3ServiceValidate.pop3ServiceCore
    simp [hpe, hnc, hsrv, hcount, hsd1, hsd, svcPreCalls, List.filter_append, hcs, isAddService]

/-- A flow three responses in, awaiting its fourth status line. -/
def ddC2 : POP3DetectorData := { server := { state := .RESPONSE, count := 3 } }

/-- The same flow after the fourth `+OK` status line. -/
def ddC2after : POP3DetectorData := { server := { state := .RESPONSE, count := 4 } }

theorem c2_witness :
    (pop3ServiceValidate (some ddC2) {} true [43, 79, 75, 32, 120, 13, 10]).res = .SUCCESS ∧
    (pop3ServiceValidate (some ddC2) {} true [43, 79, 75, 32, 120, 13, 10]).dd =
      some { ddC2after with server.subtype := [] } ∧
    (pop3ServiceValidate (some ddC2) {} true [43, 79, 75, 32, 120, 13, 10]).calls =
      svcPreCalls ddC2 ++ [] ++
        [.addService (if ddC2after.client.state = .STLS_CMD then .POP3S else .POP3)
          ddC2after.server.vendor
          (if ddC2after.server.version.isEmpty then none else some ddC2after.server.version)
          ddC2after.server.subtype] ∧
    ((pop3ServiceValidate (some ddC2) {} true [43, 79, 75, 32, 120, 13, 10]).calls).filter
        isAddService =
      [.addService (if ddC2after.client.state = .STLS_CMD then .POP3S else .POP3)
        ddC2after.server.vendor
        (if ddC2after.server.version.isEmpty then none else some ddC2after.server.version)
        ddC2after.server.subtype] :=
  c2_service_report ddC2 ddC2after {} {} [43, 79, 75, 32, 120, 13, 10] []
    (by decide) rfl (by decide) (by decide)

/-! ## C8: packet-boundary sensitivity -/

/-- One complete `+OK` status line handled from the RESPONSE state with no
pending STLS and no held username: the count goes up by one, the error flag
clears, and nothing else changes. -/
theorem server_status_plain (dd : POP3DetectorData) (fl : Flags) (srv : Bool) (mid : List Nat)
    (h1 : dd.client.state ≠ .STLS_CMD) (h2 : dd.client.username = none)
    (h3 : dd.server.state = .RESPONSE) (hmid : printableList mid) :
    pop3_server_validate dd fl (okLine mid) srv =
      ⟨.ok, { dd with server.count := dd.server.count + 1, server.error := false }, fl, []⟩ := by
  have hchk : pop3_check_line (mid ++ 13 :: 10 :: ([] : List Nat)) = (.terminated, []) :=
    checkLine_printable mid [] hmid
  have hlen : ¬ (okLine mid).length < 5 := by simp [okLine]
  have hpOK : [43, 79, 75].isPrefixOf (okLine mid) = true := by
    simp [okLine, List.isPrefixOf]
  have htk : ¬ (okLine mid).take 2 = [43, 32] := by simp [okLine]
  have hdrop : (okLine mid).drop 3 = mid ++ 13 :: 10 :: [] := by simp [okLine]
  simp [pop3_server_validate, h3, htk, responseCase, hlen, hpOK, hdrop, afterStatus, hchk,
    pop3Correlate, h1, h2]

theorem c8_feed_aux (fl : Flags) :
    ∀ (mids : List (List Nat)) (dd : POP3DetectorData),
    dd.client.state ≠ .STLS_CMD → dd.client.username = none → dd.server.state = .RESPONSE →
    (∀ mid ∈ mids, printableList mid) →
    (serverFeedAll dd fl (mids.map okLine)).1.server.count = dd.server.count + mids.length ∧
    (serverFeedAll dd fl (mids.map okLine)).1.server.state = .RESPONSE ∧
    (serverFeedAll dd fl (mids.map okLine)).1.client = dd.client ∧
    (serverFeedAll dd fl (mids.map okLine)).2.1 = fl ∧
    (serverFeedAll dd fl (mids.map okLine)).2.2 = [] := by
  intro mids
  induction mids with
  | nil =>
    intro dd h1 h2 h3 h4
    simp [serverFeedAll, h3]
  | cons m ms ih =>
    intro dd h1 h2 h3 h4
    have hm := h4 m (by simp)
    have hms : ∀ x ∈ ms, printableList x := fun x hx => h4 x (by simp [hx])
    have hstep := server_status_plain dd fl true m h1 h2 h3 hm
    have hrec := ih { dd with server.count := dd.server.count + 1, server.error := false }
      (by simpa using h1) (by simpa using h2) (by simpa using h3) hms
    obtain ⟨r1, r2, r3, r4, r5⟩ := hrec
    simp only [List.map_cons, serverFeedAll, hstep]
    refine ⟨?_, ?_, ?_, ?_, ?_⟩
    · rw [r1]; simp; omega
    · exact r2
    · rw [r3]
    · exact r4
    · simp [r5]

/-- `"+OK hello" CRLF`. -/
def okHello : List Nat := [43, 79, 75, 32, 104, 101, 108, 108, 111, 13, 10]

/-- C8 (counterexample): the same server byte stream `"+OK hello" CRLF`
delivered as one packet versus split at a packet boundary after `"+OK"`
yields a different terminal flow state and a different framework-call
sequence — the split run calls `fail_service` (twice), the unsplit run never
does.  The parsers frame on packet boundaries, so split-invariance fails. -/
theorem c8_counterexample :
    [43, 79, 75] ++ [32, 104, 101, 108, 108, 111, 13, 10] = okHello ∧
    FwCall.failService ∉ (serviceFeedAll none {} [okHello]).2.2 ∧
    FwCall.failService ∈
      (serviceFeedAll none {} [[43, 79, 75], [32, 104, 101, 108, 108, 111, 13, 10]]).2.2 ∧
    (serviceFeedAll none {} [okHello]).1 ≠
      (serviceFeedAll none {} [[43, 79, 75], [32, 104, 101, 108, 108, 111, 13, 10]]).1 := by
  decide

/-- C8 (amended): the parsers are deterministic in the per-flow state and the
payload sequence, but *not* invariant under re-packetisation: splitting the
same byte stream at an arbitrary packet boundary can change the terminal
flow state and the emitted calls (see the counterexample).  Invariance holds
for the framing the code expects: delivering complete status-line responses
one per packet from the RESPONSE state advances `response_count` by exactly
one per packet, leaves the client record, flags and call list untouched, and
returns to RESPONSE each time. -/
theorem c8_packet_framing (fl : Flags) (mids : List (List Nat)) (dd : POP3DetectorData)
    (h1 : dd.client.state ≠ .STLS_CMD) (h2 : dd.client.username = none)
    (h3 : dd.server.state = .RESPONSE) (h4 : ∀ mid ∈ mids, printableList mid) :
    (serverFeedAll dd fl (mids.map okLine)).1.server.count = dd.server.count + mids.length ∧
    (serverFeedAll dd fl (mids.map okLine)).1.server.state = .RESPONSE ∧
    (serverFeedAll dd fl (mids.map okLine)).1.client = dd.client ∧
    (serverFeedAll dd fl (mids.map okLine)).2.1 = fl ∧
    (serverFeedAll dd fl (mids.map okLine)).2.2 = [] :=
  c8_feed_aux fl mids dd h1 h2 h3 h4

/-- A flow whose server machine is in the RESPONSE state. -/
def ddResp : POP3DetectorData := { server := { state := .RESPONSE } }

theorem c8_witness :
    (serverFeedAll ddResp {} ([[32, 97], [32, 98]].map okLine)).1.server.count =
      ddResp.server.count + 2 ∧
    (serverFeedAll ddResp {} ([[32, 97], [32, 98]].map okLine)).1.server.state = .RESPONSE ∧
    (serverFeedAll ddResp {} ([[32, 97], [32, 98]].map okLine)).1.client = ddResp.client ∧
    (serverFeedAll ddResp {} ([[32, 97], [32, 98]].map okLine)).2.1 = ({} : Flags) ∧
    (serverFeedAll ddResp {} ([[32, 97], [32, 98]].map okLine)).2.2 = [] :=
  c8_packet_framing {} [[32, 97], [32, 98]] ddResp (by decide) rfl rfl
    (by unfold printableList; decide)

/-! ## C10: add_user on the status line acknowledging USER -/

/-- The client payload `"USER alice" CRLF`. -/
def userAlice : List Nat := [85, 83, 69, 82, 32, 97, 108, 105, 99, 101, 13, 10]

/-- The server payload `"+OK hi" CRLF`. -/
def okHi : List Nat := [43, 79, 75, 32, 104, 105, 13, 10]

/-- C10 (evaluation at the failing input): after the client sends
`USER alice`, the flow holds *no* username (the 1-based matcher index sends
USER into the PASS case of the 0-based switch), so the following server
`+OK` emits no add_user at all — against the claim's "the +OK acknowledging
the USER command alone already triggers add_user with success=1".  The
claim's main conditional part does hold: when a username *is* held and the
client is not in STLS_PENDING, a completed `+OK` status line emits exactly
one add_user with success = true and then clears the username (and `-ERR`
the same with success = false). -/
theorem c10_user_ack :
    ((pop3ClientValidate none {} false userAlice).dd.getD freshDD).client.username = none ∧
    ((pop3_server_validate ((pop3ClientValidate none {} false userAlice).dd.getD freshDD)
        (pop3ClientValidate none {} false userAlice).flags okHi false).calls).filter
      isAddUser = [] ∧
    ((pop3_server_validate
        { client := { username := some [97, 108, 105, 99, 101] },
          server := { state := .RESPONSE } } {} okHi false).calls).filter isAddUser =
      [.addUser [97, 108, 105, 99, 101] .POP3 true] ∧
    (pop3_server_validate
        { client := { username := some [97, 108, 105, 99, 101] },
          server := { state := .RESPONSE } } {} okHi false).dd.client.username = none ∧
    ((pop3_server_validate
        { client := { username := some [97, 108, 105, 99, 101] },
          server := { state := .RESPONSE } } {}
        [45, 69, 82, 82, 32, 110, 111, 13, 10] false).calls).filter isAddUser =
      [.addUser [97, 108, 105, 99, 101] .POP3 false] := by
  decide
